import Mathlib

/-
Verification of the DeepShiva healthcare chat application.

Code embedded from the repository sources:
  - `getValidToken` from the frontend token manager (src/unnamed/part_000).
  - the transcription upload response handler from
    src/frontend/src/components/VoiceRecorder.tsx.

The backend modules named by the documentation (api_mongodb.py, workflow.py,
document_qa_chain.py, base_chains.py) are not present under src/; the
definitions below that concern them are modelled from the specification, as
marked in their doc comments.
-/

namespace DeepShiva

/-! ## Token manager (embedded from src/unnamed/part_000) -/

/-- A Firebase user; only identity matters for the embedding. -/
structure User where
  uid : String
deriving DecidableEq

/-- Embeds `getValidToken` from the frontend token manager.
The ambient `auth.currentUser` is the `currentUser` argument; the fallible
`getIdToken` SDK call is the `getIdToken` argument, returning
`Except.error` where the original would throw.  The try/catch of the source
maps every thrown error to `null` (here `none`). -/
def getValidToken (currentUser : Option User)
    (getIdToken : User → Except String String) : Option String :=
  match currentUser with
  | none => none
  | some u =>
    match getIdToken u with
    | Except.ok t => some t
    | Except.error _ => none

/-! ## Voice recorder upload handler (embedded from VoiceRecorder.tsx) -/

/-- Outcome of the `onstop` handler of `startRecording`: navigation to a
route, the `onError` callback, or the `onTranscribed` callback. -/
inductive StopOutcome where
  | navigate (path : String)
  | errorCb (msg : String)
  | transcribed (text : String) (language : Option String)
deriving DecidableEq

/-- The `res.ok` predicate of the fetch API: status in the range 200-299. -/
def resOk (status : Nat) : Bool :=
  200 ≤ status && status < 300

/-- Embeds the response branch of the `mr.onstop` handler in
`startRecording`: on a non-ok response, status 401 navigates to /login and
returns; any other non-ok status reports an upload error through `onError`;
an ok response invokes `onTranscribed` with the parsed body. -/
def handleTranscribeResponse (status : Nat) (bodyText : String)
    (jsonText : String) (jsonLanguage : Option String) : StopOutcome :=
  if !resOk status then
    if status == 401 then
      StopOutcome.navigate "/login"
    else
      StopOutcome.errorCb ("Upload error: " ++ toString status ++ " " ++ bodyText)
  else
    StopOutcome.transcribed jsonText jsonLanguage

/-- Whether an outcome invokes the `onTranscribed` callback. -/
def invokesTranscribedCallback : StopOutcome → Bool
  | StopOutcome.transcribed _ _ => true
  | _ => false

/-! ## Conversation history tracker

Modelled from the spec: the history tracker (workflow.py / api_mongodb.py)
is not under src/.  The spec gives `append(session, turn)` and
`recent(session, n)` with the window bound enforced at read time. -/

/-- Role of a turn: user or assistant. -/
inductive Role where
  | user
  | assistant
deriving DecidableEq

/-- A single immutable turn of a conversation. -/
structure Turn where
  role : Role
  text : String
  timestamp : Nat
deriving DecidableEq

/-- A session: identity plus the ordered sequence of turns, oldest first. -/
structure Session where
  sessionId : String
  userId : String
  turns : List Turn
deriving DecidableEq

/-- Modelled from the spec: `append(session, turn)` adds a turn at the end
of the arrival-ordered sequence. -/
def Session.append (s : Session) (t : Turn) : Session :=
  { s with turns := s.turns ++ [t] }

/-- Modelled from the spec: `recent(session, n)` returns the at-most-`n`
most-recent turns, oldest first; the bound is enforced at read time and
storage is not truncated.  Pure by construction. -/
def recent (s : Session) (n : Nat) : List Turn :=
  s.turns.drop (s.turns.length - n)

/-! ## Document store adapter

Modelled from the spec: the store (api_mongodb.py endpoints
/documents/upload, GET /documents, DELETE /documents/id) is not under
src/.  Documents carry an owner; fetch/delete check ownership; upload
rejects non-PDF payloads. -/

/-- Processing status of a stored document. -/
inductive DocStatus where
  | processed
  | failed
deriving DecidableEq

/-- A stored document.  `fullText` stands for the decrypted full text (it is
stored encrypted; decryption is transient and out of scope). -/
structure Document where
  docId : Nat
  owner : String
  fileName : String
  fullText : List Char
  summary : String
  status : DocStatus
deriving DecidableEq

/-- Error taxonomy of the external interfaces. -/
inductive StoreError where
  | notFound
  | forbidden
  | invalidFormat
  | unauthorized
deriving DecidableEq

/-- The document store is the list of all stored documents. -/
abbrev DocStore := List Document

/-- Look a document up by id. -/
def findDoc (store : DocStore) (docId : Nat) : Option Document :=
  store.find? (fun d => d.docId == docId)

/-- Modelled from the spec: fetch a document by id on behalf of a user;
a document owned by someone else yields `Forbidden`. -/
def fetchDoc (store : DocStore) (userId : String) (docId : Nat) :
    Except StoreError Document :=
  match findDoc store docId with
  | none => Except.error StoreError.notFound
  | some d =>
    if d.owner == userId then Except.ok d
    else Except.error StoreError.forbidden

/-- Modelled from the spec: delete a document by id on behalf of a user;
a document owned by someone else yields `Forbidden` and leaves the store
unchanged. -/
def deleteDoc (store : DocStore) (userId : String) (docId : Nat) :
    Except StoreError Unit × DocStore :=
  match findDoc store docId with
  | none => (Except.error StoreError.notFound, store)
  | some d =>
    if d.owner == userId then
      (Except.ok (), store.filter (fun x => x.docId != docId))
    else
      (Except.error StoreError.forbidden, store)

/-- Modelled from the spec: list a user's documents; only documents owned
by that user are visible. -/
def listDocs (store : DocStore) (userId : String) : List Document :=
  store.filter (fun d => d.owner == userId)

/-- The PDF magic header bytes, `%PDF`. -/
def pdfMagic : List Nat := [0x25, 0x50, 0x44, 0x46]

/-- Modelled from the spec: PDF validation of an upload payload (only PDF
files are accepted), decided by the file header. -/
def isPdf (bytes : List Nat) : Bool :=
  bytes.take 4 == pdfMagic

/-- The analysis summary returned by a successful upload. -/
structure DocumentSummary where
  fileName : String
  summary : String
deriving DecidableEq

/-- Modelled from the spec: `upload(userId, fileBytes)` validates the PDF
header, extracts the text (extraction is delegated to an external library,
passed as `extract`), analyzes it (the LLM analysis, passed as `analyze`),
persists the document and returns its summary; a non-PDF payload yields
`Error(InvalidFormat)` and persists nothing. -/
def upload (extract : List Nat → List Char) (analyze : List Char → String)
    (store : DocStore) (userId fileName : String) (bytes : List Nat) :
    Except StoreError DocumentSummary × DocStore :=
  if isPdf bytes then
    let text := extract bytes
    let s := analyze text
    let d : Document :=
      { docId := store.length, owner := userId, fileName := fileName,
        fullText := text, summary := s, status := DocStatus.processed }
    (Except.ok { fileName := fileName, summary := s }, store ++ [d])
  else
    (Except.error StoreError.invalidFormat, store)

/-! ## Intent classifier

Modelled from the spec: intent classification (base_chains.py) is not under
src/.  The classifier is a thin call to the external LLM; on error it falls
back to `general` and logs, and never propagates the error. -/

/-- The fixed intent label enumeration. -/
inductive IntentLabel where
  | symptom_check
  | document_query
  | health_advisory
  | ayurvedic_recommendation
  | yoga_suggestion
  | general
deriving DecidableEq

/-- Modelled from the spec: wrap the external classification call.  A
successful call yields its label; a failed call yields the safe fallback
`general` together with a log entry, never an error. -/
def classifyIntent (llmResult : Except String IntentLabel) :
    IntentLabel × List String :=
  match llmResult with
  | Except.ok l => (l, [])
  | Except.error e => (IntentLabel.general, ["intent classification failed: " ++ e])

/-! ## Conversational symptom assessment state machine

Modelled from the spec: the `ConversationalSymptomChecker`
(document_qa_chain.py / workflow.py) is not under src/.  States are
`GATHERING` and `ASSESSMENT_COMPLETE`; each user turn merges the extracted
slots, completes when all of severity, duration, location, context are
filled or the turn cap is reached, and otherwise emits exactly one
clarifying question for the most important missing slot. -/

/-- The four required assessment slots. -/
inductive Slot where
  | severity
  | duration
  | location
  | context
deriving DecidableEq

/-- Collected slot values; each optional until filled. -/
structure SlotValues where
  severity : Option String
  duration : Option String
  location : Option String
  context : Option String
deriving DecidableEq

/-- Whether every required slot is filled. -/
def SlotValues.allFilled (s : SlotValues) : Bool :=
  s.severity.isSome && s.duration.isSome && s.location.isSome && s.context.isSome

/-- The missing slots, in priority order. -/
def missingSlots (s : SlotValues) : List Slot :=
  (if s.severity.isNone then [Slot.severity] else []) ++
  (if s.duration.isNone then [Slot.duration] else []) ++
  (if s.location.isNone then [Slot.location] else []) ++
  (if s.context.isNone then [Slot.context] else [])

/-- Merge newly extracted slot values into the accumulated state; an
already-filled slot keeps its value. -/
def mergeSlots (s extracted : SlotValues) : SlotValues :=
  { severity := s.severity.orElse (fun _ => extracted.severity)
    duration := s.duration.orElse (fun _ => extracted.duration)
    location := s.location.orElse (fun _ => extracted.location)
    context := s.context.orElse (fun _ => extracted.context) }

/-- The two states of the assessment state machine. -/
inductive AssessState where
  | gathering
  | assessmentComplete
deriving DecidableEq

/-- Per-thread assessment state: machine state, slots, turns consumed. -/
structure Assessment where
  state : AssessState
  slots : SlotValues
  turnCount : Nat
deriving DecidableEq

/-- Modelled from the spec: the maximum turn count that guarantees
termination.  The spec requires a bound but leaves its value open; it is
fixed at 5 here, matching the 5-message history window. -/
def maxTurns : Nat := 5

/-- The single clarifying question for one missing slot; each contains
exactly one question mark. -/
def slotQuestion : Slot → String
  | Slot.severity => "How severe is it, on a scale of 1 to 10?"
  | Slot.duration => "How long have you had this symptom?"
  | Slot.location => "Where exactly is the symptom located?"
  | Slot.context => "Is there anything that makes it better or worse?"

/-- The clarifying follow-up for the single most important missing slot;
falls back to a generic prompt when nothing is missing. -/
def clarifyingQuestion (s : SlotValues) : String :=
  match missingSlots s with
  | [] => "Can you tell me more?"
  | sl :: _ => slotQuestion sl

/-- The handoff reply once assessment is complete (the advisory responder
takes over; it asks no further question). -/
def handoffReply (_s : SlotValues) : String :=
  "Based on what you have shared, let me find recommendations for you."

/-- Number of open questions in a reply, counted by question marks. -/
def countQuestions (r : String) : Nat :=
  r.toList.count '?'

/-- Modelled from the spec: one `GATHERING` step.  Merges the slots the LLM
extracted from the new user message and transitions to
`ASSESSMENT_COMPLETE` exactly when all required slots are filled or the
maximum turn count is reached. -/
def stepGathering (a : Assessment) (extracted : SlotValues) : Assessment :=
  let slots := mergeSlots a.slots extracted
  let tc := a.turnCount + 1
  if slots.allFilled || decide (maxTurns ≤ tc) then
    { state := AssessState.assessmentComplete, slots := slots, turnCount := tc }
  else
    { state := AssessState.gathering, slots := slots, turnCount := tc }

/-- Modelled from the spec: process one user turn of a symptom thread.
Returns the surviving machine state (`none` once the machine is torn down
after completion) and the emitted reply: the advisory handoff on
completion, otherwise exactly one clarifying question. -/
def processTurn (a : Assessment) (extracted : SlotValues) :
    Option Assessment × String :=
  if a.state == AssessState.assessmentComplete then
    (none, handoffReply a.slots)
  else
    let a' := stepGathering a extracted
    if a'.state == AssessState.assessmentComplete then
      (none, handoffReply a'.slots)
    else
      (some a', clarifyingQuestion a'.slots)

/-- Run the machine over a sequence of user turns (each giving the slots
extracted from that message); `none` once torn down. -/
def runAssessment (a : Assessment) (es : List SlotValues) : Option Assessment :=
  match es with
  | [] => some a
  | e :: rest =>
    match processTurn a e with
    | (none, _) => none
    | (some a', _) => runAssessment a' rest

/-! ## Document Q&A context

Modelled from the spec: the `DocumentQAChain` (document_qa_chain.py) is not
under src/.  It fetches at most 5 recent documents and truncates each
decrypted full text to 2000 characters, taking the head of the text, before
inclusion in the prompt context. -/

/-- Modelled from the spec: truncate a decrypted document text to the
2000-character bound, taking the head of the text. -/
def truncateDocText (t : List Char) : List Char :=
  t.take 2000

/-- Modelled from the spec: the per-document prompt-context entries for a
document query: at most 5 recent documents, each as its file name paired
with its truncated decrypted text. -/
def docQAContext (docs : List Document) : List (String × List Char) :=
  (docs.take 5).map (fun d => (d.fileName, truncateDocText d.fullText))

/-! ## Sample values used by the witnesses -/

/-- An empty slot state. -/
def noSlots : SlotValues :=
  { severity := none, duration := none, location := none, context := none }

/-- A sample document owned by user alice. -/
def sampleDoc : Document :=
  { docId := 0, owner := "alice", fileName := "report.pdf",
    fullText := "Hemoglobin: 10.2 g/dL".toList,
    summary := "Complete Blood Count", status := DocStatus.processed }

/-! ## Theorems -/

/-- C10: `getValidToken` never throws and is Option-like: it returns `none`
both when there is no authenticated current user and when the underlying
token retrieval throws, and returns a token string exactly when retrieval
succeeds for an authenticated user.  Totality (it never throws) holds by
the return type `Option String` of the embedding. -/
theorem getValidToken_option_semantics (currentUser : Option User)
    (gk : User → Except String String) :
    (currentUser = none → getValidToken currentUser gk = none) ∧
    (∀ u e, currentUser = some u → gk u = Except.error e →
      getValidToken currentUser gk = none) ∧
    (∀ t, getValidToken currentUser gk = some t ↔
      ∃ u, currentUser = some u ∧ gk u = Except.ok t) := by
  refine ⟨?_, ?_, ?_⟩
  · rintro rfl
    rfl
  · rintro u e rfl hgk
    simp [getValidToken, hgk]
  · intro t
    cases currentUser with
    | none => simp [getValidToken]
    | some u =>
      cases hg : gk u with
      | ok t2 => simp [getValidToken, hg]
      | error e => simp [getValidToken, hg]

/-- Witness for C10: the three behaviors at concrete inputs. -/
theorem getValidToken_option_semantics_witness :
    getValidToken none (fun _ => Except.ok "tok") = none ∧
    getValidToken (some { uid := "u1" }) (fun _ => Except.error "boom") = none ∧
    getValidToken (some { uid := "u1" }) (fun _ => Except.ok "tok") = some "tok" :=
  ⟨(getValidToken_option_semantics none (fun _ => Except.ok "tok")).1 rfl,
   (getValidToken_option_semantics (some { uid := "u1" })
     (fun _ => Except.error "boom")).2.1 { uid := "u1" } "boom" rfl rfl,
   ((getValidToken_option_semantics (some { uid := "u1" })
     (fun _ => Except.ok "tok")).2.2 "tok").mpr ⟨{ uid := "u1" }, rfl, rfl⟩⟩

/-- C9: a 401 (unauthorized) response to the transcription upload makes the
`onstop` handler navigate to /login, and the `onTranscribed` callback is
not invoked; the handler performs no internal retry (it is a single-shot
function of the one response). -/
theorem transcribe_unauthorized_redirects (bodyText jsonText : String)
    (lang : Option String) :
    handleTranscribeResponse 401 bodyText jsonText lang =
      StopOutcome.navigate "/login" ∧
    invokesTranscribedCallback
      (handleTranscribeResponse 401 bodyText jsonText lang) = false :=
  ⟨rfl, rfl⟩

/-- C2: `recent` returns at most `n` turns, never more than have been
appended, and exactly the most-recent `min n length` turns as a suffix of
the arrival-ordered sequence (hence oldest-first, in arrival order); in
particular `recent s 5` returns at most 5 turns.  Side-effect freedom holds
by construction: `recent` is a pure function of the session. -/
theorem recent_window (s : Session) (n : Nat) :
    (recent s n).length ≤ n ∧
    (recent s n).length ≤ s.turns.length ∧
    (recent s n).length = min n s.turns.length ∧
    recent s n <:+ s.turns ∧
    (recent s 5).length ≤ 5 := by
  refine ⟨?_, ?_, ?_, List.drop_suffix _ _, ?_⟩ <;>
    simp [recent] <;> omega

/-- C7: a failed external classification call yields the safe fallback
label `general` together with a non-empty log, and a successful call yields
its label; in neither case is an error propagated (the classifier is total
into `IntentLabel × List String`). -/
theorem classifier_safe_fallback :
    (∀ e, (classifyIntent (Except.error e)).1 = IntentLabel.general ∧
      (classifyIntent (Except.error e)).2 ≠ []) ∧
    (∀ l, classifyIntent (Except.ok l) = (l, [])) := by
  constructor
  · intro e
    constructor
    · rfl
    · simp [classifyIntent]
  · intro l
    rfl

/-- C5: every document entry of a document-query prompt context carries
that document's decrypted full text truncated to at most 2000 characters,
and the excerpt is the head of the text (appending the dropped tail
restores the full text). -/
theorem docqa_truncation (docs : List Document) (p : String × List Char)
    (hp : p ∈ docQAContext docs) :
    p.2.length ≤ 2000 ∧
    ∃ d, d ∈ docs ∧ p.1 = d.fileName ∧ p.2 = truncateDocText d.fullText ∧
      p.2 ++ d.fullText.drop 2000 = d.fullText := by
  rcases List.mem_map.mp hp with ⟨d, hd, hpd⟩
  subst hpd
  refine ⟨?_, d, List.mem_of_mem_take hd, rfl, rfl, ?_⟩
  · simp [truncateDocText]
  · simp [truncateDocText, List.take_append_drop]

/-- Witness for C5: the sample document in a one-document store. -/
theorem docqa_truncation_witness :
    (("report.pdf", truncateDocText sampleDoc.fullText) :
        String × List Char).2.length ≤ 2000 ∧
    ∃ d, d ∈ [sampleDoc] ∧
      (("report.pdf", truncateDocText sampleDoc.fullText) :
        String × List Char).1 = d.fileName ∧
      (("report.pdf", truncateDocText sampleDoc.fullText) :
        String × List Char).2 = truncateDocText d.fullText ∧
      (("report.pdf", truncateDocText sampleDoc.fullText) :
        String × List Char).2 ++ d.fullText.drop 2000 = d.fullText :=
  docqa_truncation [sampleDoc] ("report.pdf", truncateDocText sampleDoc.fullText)
    (by simp [docQAContext, sampleDoc])

/-- C6: a non-PDF upload payload yields `Error(InvalidFormat)` and the
document store is unchanged: nothing is persisted on this error path. -/
theorem upload_rejects_non_pdf (extract : List Nat → List Char)
    (analyze : List Char → String) (store : DocStore)
    (userId fileName : String) (bytes : List Nat)
    (h : isPdf bytes = false) :
    (upload extract analyze store userId fileName bytes).1 =
      Except.error StoreError.invalidFormat ∧
    (upload extract analyze store userId fileName bytes).2 = store := by
  simp [upload, h]

/-- Witness for C6: a three-byte payload without the PDF header is rejected
and the empty store stays empty. -/
theorem upload_rejects_non_pdf_witness :
    (upload (fun _ => []) (fun _ => "") [] "u" "notes.txt" [1, 2, 3]).1 =
      Except.error StoreError.invalidFormat ∧
    (upload (fun _ => []) (fun _ => "") [] "u" "notes.txt" [1, 2, 3]).2 = [] :=
  upload_rejects_non_pdf (fun _ => []) (fun _ => "") [] "u" "notes.txt"
    [1, 2, 3] (by decide)

/-- C1: for distinct users, `fetch` and `delete` on a document owned by the
first user fail with `Forbidden` under the second identity (the store is
unchanged by the failed delete), a fetched document always belongs to the
fetching user, and listing shows only documents owned by the requesting
user. -/
theorem document_access_control (store : DocStore) (a b : String) (i : Nat)
    (d : Document) (hab : a ≠ b) (hfind : findDoc store i = some d)
    (hown : d.owner = a) :
    fetchDoc store b i = Except.error StoreError.forbidden ∧
    (deleteDoc store b i).1 = Except.error StoreError.forbidden ∧
    (deleteDoc store b i).2 = store ∧
    (∀ u d2, fetchDoc store u i = Except.ok d2 → d2.owner = u) ∧
    (∀ u d2, d2 ∈ listDocs store u → d2.owner = u) := by
  have hne : (d.owner == b) = false := by
    simp [hown]
    exact hab
  refine ⟨?_, ?_, ?_, ?_, ?_⟩
  · simp [fetchDoc, hfind, hne]
  · simp [deleteDoc, hfind, hne]
  · simp [deleteDoc, hfind, hne]
  · intro u d2 h
    simp only [fetchDoc, hfind] at h
    split at h
    · next hcond =>
      cases h
      exact eq_of_beq hcond
    · cases h
  · intro u d2 h
    have hm := List.mem_filter.mp h
    exact eq_of_beq hm.2

/-- Witness for C1: alice owns the sample document; bob can neither fetch
nor delete it. -/
theorem document_access_control_witness :
    fetchDoc [sampleDoc] "bob" 0 = Except.error StoreError.forbidden ∧
    (deleteDoc [sampleDoc] "bob" 0).1 = Except.error StoreError.forbidden ∧
    (deleteDoc [sampleDoc] "bob" 0).2 = [sampleDoc] ∧
    (∀ u d2, fetchDoc [sampleDoc] u 0 = Except.ok d2 → d2.owner = u) ∧
    (∀ u d2, d2 ∈ listDocs [sampleDoc] u → d2.owner = u) :=
  document_access_control [sampleDoc] "alice" "bob" 0 sampleDoc
    (by decide) rfl rfl

/-- Each per-slot clarifying question contains exactly one question mark. -/
theorem countQuestions_slotQuestion (sl : Slot) :
    countQuestions (slotQuestion sl) = 1 := by
  cases sl <;> decide

/-- The clarifying follow-up always contains exactly one question mark. -/
theorem countQuestions_clarifying (s : SlotValues) :
    countQuestions (clarifyingQuestion s) = 1 := by
  rw [clarifyingQuestion]
  cases hm : missingSlots s with
  | nil => decide
  | cons sl rest => exact countQuestions_slotQuestion sl

/-- C3: a user turn processed while the machine is `GATHERING` that leaves
required slots unfilled (the machine survives the turn) emits a reply with
exactly one clarifying question — never more than one open question. -/
theorem gathering_one_question (a : Assessment) (e : SlotValues)
    (a' : Assessment) (hg : a.state = AssessState.gathering)
    (hres : (processTurn a e).1 = some a') :
    countQuestions (processTurn a e).2 = 1 := by
  unfold processTurn at hres ⊢
  rw [hg] at hres ⊢
  split_ifs at hres ⊢ with h1
  dsimp only at hres ⊢
  split_ifs at hres ⊢ with h2
  exact countQuestions_clarifying _

/-- Witness for C3: the first turn of a fresh assessment with nothing
extracted emits exactly one question. -/
theorem gathering_one_question_witness :
    countQuestions
      (processTurn
        { state := AssessState.gathering, slots := noSlots, turnCount := 0 }
        noSlots).2 = 1 :=
  gathering_one_question
    { state := AssessState.gathering, slots := noSlots, turnCount := 0 }
    noSlots
    { state := AssessState.gathering, slots := noSlots, turnCount := 1 }
    rfl (by decide)

/-- One `GATHERING` step increments the turn counter, and if it stays in
`GATHERING` then the turn cap has not been reached. -/
theorem stepGathering_bound (a : Assessment) (e : SlotValues) :
    (stepGathering a e).turnCount = a.turnCount + 1 ∧
    ((stepGathering a e).state = AssessState.gathering →
      a.turnCount + 1 < maxTurns) := by
  simp only [stepGathering]
  split
  · exact ⟨rfl, fun h => AssessState.noConfusion h⟩
  · next hcond =>
    refine ⟨rfl, fun _ => ?_⟩
    simp only [Bool.or_eq_true, decide_eq_true_eq, not_or] at hcond
    omega

/-- One `GATHERING` step reaches `ASSESSMENT_COMPLETE` exactly when the
merged slots are all filled or the turn cap is reached. -/
theorem stepGathering_state_iff (a : Assessment) (e : SlotValues) :
    (stepGathering a e).state = AssessState.assessmentComplete ↔
      ((mergeSlots a.slots e).allFilled = true ∨
        maxTurns ≤ a.turnCount + 1) := by
  simp only [stepGathering]
  split
  · next hcond =>
    simp only [Bool.or_eq_true, decide_eq_true_eq] at hcond
    simpa using hcond
  · next hcond =>
    simp only [Bool.or_eq_true, decide_eq_true_eq, not_or] at hcond
    constructor
    · intro h
      exact AssessState.noConfusion h
    · intro h
      rcases h with h | h
      · exact absurd h hcond.1
      · exact absurd h hcond.2

/-- Over any non-empty run of turns long enough to hit the turn cap, the
machine is torn down (`none`) by the end of the run. -/
theorem runAssessment_none (es : List SlotValues) :
    ∀ a : Assessment, es ≠ [] → maxTurns ≤ a.turnCount + es.length →
      runAssessment a es = none := by
  induction es with
  | nil => exact fun a h _ => absurd rfl h
  | cons e0 rest ih =>
    intro a _ hlen
    rw [runAssessment]
    unfold processTurn
    split_ifs with h1
    · rfl
    · dsimp only
      split_ifs with h2
      · rfl
      · show runAssessment (stepGathering a e0) rest = none
        have hb := stepGathering_bound a e0
        cases rest with
        | nil =>
          exfalso
          have hst : (stepGathering a e0).state = AssessState.gathering := by
            cases hs : (stepGathering a e0).state
            · rfl
            · exact absurd (by simp [hs]) h2
          have := hb.2 hst
          simp at hlen
          omega
        | cons e1 rest2 =>
          apply ih
          · simp
          · have htc : (stepGathering a e0).turnCount = a.turnCount + 1 :=
              hb.1
            simp only [List.length_cons] at hlen ⊢
            omega

/-- C4: the machine leaves `GATHERING` for `ASSESSMENT_COMPLETE` exactly
when all required slots are filled after merging or the maximum turn count
is reached, and every assessment terminates in a bounded number of turns:
once enough turns have elapsed to reach the cap, the machine has been torn
down for the thread (`runAssessment` yields `none`). -/
theorem assessment_bounded_termination (a : Assessment) (e : SlotValues)
    (es : List SlotValues) (_hg : a.state = AssessState.gathering)
    (hlen : maxTurns ≤ a.turnCount + es.length) (hne : es ≠ []) :
    ((stepGathering a e).state = AssessState.assessmentComplete ↔
      ((mergeSlots a.slots e).allFilled = true ∨
        maxTurns ≤ a.turnCount + 1)) ∧
    runAssessment a es = none :=
  ⟨stepGathering_state_iff a e, runAssessment_none es a hne hlen⟩

/-- Witness for C4: a fresh assessment over five uninformative turns is
torn down within the turn cap. -/
theorem assessment_bounded_termination_witness :
    ((stepGathering
        { state := AssessState.gathering, slots := noSlots, turnCount := 0 }
        noSlots).state = AssessState.assessmentComplete ↔
      ((mergeSlots noSlots noSlots).allFilled = true ∨ maxTurns ≤ 0 + 1)) ∧
    runAssessment
      { state := AssessState.gathering, slots := noSlots, turnCount := 0 }
      (List.replicate 5 noSlots) = none :=
  assessment_bounded_termination
    { state := AssessState.gathering, slots := noSlots, turnCount := 0 }
    noSlots (List.replicate 5 noSlots) rfl (by decide) (by decide)

/-- Witness for C2: a one-turn session within the 5-turn window. -/
theorem recent_window_witness :
    (recent
      { sessionId := "s1", userId := "u1",
        turns := [{ role := Role.user, text := "hello", timestamp := 0 }] }
      5).length ≤ 5 :=
  (recent_window
    { sessionId := "s1", userId := "u1",
      turns := [{ role := Role.user, text := "hello", timestamp := 0 }] }
    5).1

/-- Witness for C7: a timed-out classification call at a concrete input. -/
theorem classifier_safe_fallback_witness :
    (classifyIntent (Except.error "timeout")).1 = IntentLabel.general :=
  (classifier_safe_fallback.1 "timeout").1

/-- Witness for C9: a concrete 401 response navigates to /login. -/
theorem transcribe_unauthorized_redirects_witness :
    handleTranscribeResponse 401 "" "" none = StopOutcome.navigate "/login" :=
  (transcribe_unauthorized_redirects "" "" none).1

end DeepShiva
